import Mathlib

/-!
Verification development for the text-to-journal application's security core:
the auth validation gateway (`supabase/functions/secure-auth/index.ts`), the
client auth orchestrator (`src/hooks/useAuth.tsx`) and the journal content
pipeline (`src/services/journalService.ts`).

External collaborators (the identity provider, the relational and object
storage backends, the per-user cipher utilities and the Intl timezone
database) are not part of the translated sources; they enter the model as
explicit parameters (outcome values and function arguments), while every
branch and computation of the repository's own code is translated directly.
-/

namespace SecureAuth

/-- Character class of the email regex: anything except whitespace and the
at-sign, mirroring the class in the pattern used by `validateEmail`
(ASCII whitespace is modelled by `Char.isWhitespace`). -/
def emailCharOk (c : Char) : Bool :=
  !c.isWhitespace && c != '@'

/-- Splits a character list at every occurrence of the separator, the list
analogue of splitting a string on a one-character separator. -/
def splitOnChar (sep : Char) : List Char → List (List Char)
  | [] => [[]]
  | c :: rest =>
    let r := splitOnChar sep rest
    if c = sep then [] :: r
    else
      match r with
      | [] => [[c]]
      | h :: t => (c :: h) :: t

/-- Translation of `validateEmail` from `secure-auth/index.ts`: the string has
to match a pattern of the shape local-at-domain and be at most 254 characters.
Since every character class of the pattern excludes the at-sign, a match exists
exactly when the string splits at a single at-sign into a non-empty local part
and a domain that contains a dot with at least one pattern character on each
side; the dot may sit anywhere strictly inside the domain because the
surrounding classes admit dots themselves. -/
def validateEmail (email : String) : Bool :=
  match splitOnChar '@' email.toList with
  | [lc, dc] =>
    !lc.isEmpty && lc.all emailCharOk && dc.all emailCharOk
      && ((dc.drop 1).dropLast.contains '.')
      && decide (email.length ≤ 254)
  | _ => false

/-- Translation of `validatePassword` from `secure-auth/index.ts`: at least 8
characters with an upper-case letter, a lower-case letter and a digit
(the regexes are the ASCII classes, matching Lean's character predicates). -/
def validatePassword (password : String) : Bool :=
  let minLength := decide (password.length ≥ 8)
  let hasUpper := password.toList.any Char.isUpper
  let hasLower := password.toList.any Char.isLower
  let hasNumber := password.toList.any Char.isDigit
  minLength && hasUpper && hasLower && hasNumber

/-- Translation of `validatePhoneNumber` from `secure-auth/index.ts`: strip
every non-digit character and require 10 to 15 remaining digits. -/
def validatePhoneNumber (phone : String) : Bool :=
  let cleaned := phone.toList.filter Char.isDigit
  decide (cleaned.length ≥ 10) && decide (cleaned.length ≤ 15)

/-- Body of an auth request as parsed from JSON; absent string fields are
modelled by the empty string, which is exactly what the handler's falsiness
checks test for. -/
structure AuthRequest where
  action : String
  email : String
  password : String
  phoneNumber : String
  timezone : String
  deriving Repr, DecidableEq

/-- Result row of the `check_rate_limit` RPC consumed by the handler; the
counter logic itself lives in the database collaborator, so the handler only
sees this record. -/
structure RateLimitResult where
  allowed : Bool
  attempts : Nat
  max_attempts : Nat
  blocked_until : Option Int
  deriving Repr, DecidableEq

/-- Row of `account_lockouts` as selected by the handler; `locked_until` is a
timestamp in epoch milliseconds (absent when null). -/
structure LockoutRow where
  locked_until : Option Int
  failed_attempts : Nat
  deriving Repr, DecidableEq

/-- Outcome of the identity provider's `auth.signUp` call: either an error
message (returned in the result value) or success, recording whether a user
object was present in the returned data. -/
inductive SignUpOutcome where
  | failure (msg : String)
  | success (hasUser : Bool)
  deriving Repr, DecidableEq

/-- Environment of one request: the client address derived from headers, the
current time, and the responses the storage and identity collaborators return
for this request.  `logOutcome` is the success flag of the security-event
insert; per the storage client's contract the insert reports failure inside
its result value, which the handler discards. -/
structure ServeEnv where
  clientIP : String
  nowMillis : Int
  rateLimitResult : RateLimitResult
  lockoutRow : Option LockoutRow
  signUpOutcome : SignUpOutcome
  logOutcome : Bool
  deriving Repr, DecidableEq

/-- Calls the handler makes against its collaborators, in order. -/
inductive Effect where
  | rpcCheckRateLimit (identifier endpoint : String) (maxAttempts windowMinutes : Nat)
  | insertSecurityEvent (eventType identifier severity : String) (ok : Bool)
  | selectLockout (email : String)
  | authSignUp (email : String)
  deriving Repr, DecidableEq

/-- JSON response of the handler: HTTP status plus the body fields that are
present in at least one branch of `secure-auth/index.ts`. -/
structure HttpResponse where
  status : Nat
  error : Option String := none
  validation_passed : Option Bool := none
  message : Option String := none
  rate_limit : Option (Nat × Nat) := none
  blocked_until : Option Int := none
  locked_until : Option Int := none
  signupHasUser : Option Bool := none
  deriving Repr, DecidableEq

/-- Lockout condition of the handler, `lockoutData?.locked_until && new
Date(lockoutData.locked_until) > new Date()`: returns the active lock expiry
when the selected row carries a `locked_until` strictly in the future. -/
def activeLockUntil (nowMillis : Int) (row : Option LockoutRow) : Option Int :=
  match row with
  | some r =>
    match r.locked_until with
    | some t => if nowMillis < t then some t else none
    | none => none
  | none => none

/-- Translation of the request handler of `secure-auth/index.ts` after JSON
parsing succeeded: input validation in source order, then the rate-limit gate,
then (for sign-in) the lockout gate, then the action-specific response.
Returns the list of collaborator calls made and the HTTP response. -/
def serveValidated (env : ServeEnv) (req : AuthRequest) : List Effect × HttpResponse :=
  if ¬(req.action = "signin" ∨ req.action = "signup") then
    ([], { status := 400, error := some "Invalid action. Must be signin or signup." })
  else if req.email = "" ∨ validateEmail req.email = false then
    ([], { status := 400, error := some "Valid email address is required" })
  else if req.password = "" then
    ([], { status := 400, error := some "Password is required" })
  else if req.action = "signup" ∧ validatePassword req.password = false then
    ([], { status := 400,
           error := some "Password must be at least 8 characters long and contain uppercase, lowercase, and at least one number" })
  else if req.phoneNumber ≠ "" ∧ validatePhoneNumber req.phoneNumber = false then
    ([], { status := 400, error := some "Invalid phone number format" })
  else
    let identifier := env.clientIP ++ ":" ++ req.email
    let endpoint := if req.action = "signin" then "auth_signin" else "auth_signup"
    let maxAttempts := if req.action = "signin" then 5 else 3
    let rlEffect := Effect.rpcCheckRateLimit identifier endpoint maxAttempts 15
    let rl := env.rateLimitResult
    if rl.allowed = false then
      ([rlEffect, Effect.insertSecurityEvent "rate_limit_exceeded" identifier "medium" env.logOutcome],
       { status := 429, error := some "Too many attempts. Please try again later.",
         blocked_until := rl.blocked_until })
    else if req.action = "signin" then
      let lockEffect := Effect.selectLockout req.email
      match activeLockUntil env.nowMillis env.lockoutRow with
      | some t =>
        ([rlEffect, lockEffect],
         { status := 423,
           error := some "Account temporarily locked due to multiple failed login attempts",
           locked_until := some t })
      | none =>
        ([rlEffect, lockEffect],
         { status := 200, validation_passed := some true,
           message := some "Security validation passed",
           rate_limit := some (rl.attempts, rl.max_attempts) })
    else
      match env.signUpOutcome with
      | .failure msg =>
        ([rlEffect, Effect.authSignUp req.email], { status := 400, error := some msg })
      | .success hasUser =>
        ([rlEffect, Effect.authSignUp req.email]
           ++ (if hasUser then [Effect.insertSecurityEvent "user_signup" req.email "low" env.logOutcome] else []),
         { status := 200, rate_limit := some (rl.attempts, rl.max_attempts),
           signupHasUser := some hasUser })

/-- Full handler including JSON parsing: a body that fails to parse is
answered with 400 before anything else happens. -/
def serve (env : ServeEnv) (body : Option AuthRequest) : List Effect × HttpResponse :=
  match body with
  | none => ([], { status := 400, error := some "Invalid JSON in request body" })
  | some req => serveValidated env req

end SecureAuth

namespace ClientAuth

/-- Local auth state of the `useAuth` hook: the `user` and `session` React
state cells, holding opaque identifiers when set. -/
structure AuthState where
  user : Option String
  session : Option String
  deriving Repr, DecidableEq

/-- Translation of `clearAuthState` from `useAuth.tsx`: reset both cells. -/
def clearAuthState (s : AuthState) : AuthState :=
  { s with session := none, user := none }

/-- Calls the client orchestrator makes during `signIn`, in order. -/
inductive ClientEffect where
  | invokeSecureAuth (action email : String)
  | signInWithPassword (email : String)
  | trackLoginFailure (email : String)
  deriving Repr, DecidableEq

/-- What the collaborators return to one `signIn` call: the result of the
`secure-auth` function invocation (a transport error, or the parsed data's
`validation_passed` flag, false also when the data object is absent) and the
outcome of `auth.signInWithPassword` (an error message or success). -/
structure SignInEnv where
  invokeError : Option String
  validationPassed : Bool
  authError : Option String
  deriving Repr, DecidableEq

/-- Result value of `signIn`: the `{data, error}` pair collapsed to a sum. -/
inductive SignInResult where
  | failure (msg : String)
  | success
  deriving Repr, DecidableEq

/-- Translation of `signIn` from `useAuth.tsx`: step 1 invokes the
`secure-auth` validation gateway; any invocation error or a missing
`validation_passed` flag aborts; only then does step 2 perform the credential
exchange with the identity provider, recording a best-effort failure-tracking
call when it fails. -/
def signIn (env : SignInEnv) (email : String) : List ClientEffect × SignInResult :=
  let e0 := ClientEffect.invokeSecureAuth "signin" email
  match env.invokeError with
  | some msg => ([e0], .failure msg)
  | none =>
    if env.validationPassed = false then
      ([e0], .failure "Security validation failed")
    else
      match env.authError with
      | some msg =>
        ([e0, ClientEffect.signInWithPassword email, ClientEffect.trackLoginFailure email],
         .failure msg)
      | none => ([e0, ClientEffect.signInWithPassword email], .success)

/-- Outcome of the remote `supabase.auth.signOut` call: clean success, an
error reported in the result value, or a thrown exception. -/
inductive RemoteSignOutOutcome where
  | ok
  | errResult (msg : String)
  | thrown (msg : String)
  deriving Repr, DecidableEq

/-- Steps of the `signOut` flow, in execution order. -/
inductive SignOutEvent where
  | clearLocalState
  | remoteSignOutCall (outcome : RemoteSignOutOutcome)
  deriving Repr, DecidableEq

/-- Translation of `signOut` from `useAuth.tsx`: `clearAuthState()` runs first,
then the remote sign-out; whether the remote call succeeds, returns an error
value, or throws (caught by the surrounding try), the already-cleared state is
never touched again and the function returns a null error. -/
def signOut (s : AuthState) (r : RemoteSignOutOutcome) :
    AuthState × List SignOutEvent × Option String :=
  (clearAuthState s,
   [SignOutEvent.clearLocalState, SignOutEvent.remoteSignOutCall r],
   none)

end ClientAuth

namespace Journal

/-- Executable translation of the whitespace trim applied to content and
title before encryption (JS `trim`): strip leading and trailing whitespace. -/
def strTrim (s : String) : String :=
  String.mk (((s.toList.dropWhile Char.isWhitespace).reverse.dropWhile
    Char.isWhitespace).reverse)

/-- Row of `journal_photos` as selected together with its entry. -/
structure PhotoRow where
  id : String
  file_path : String
  file_name : String
  deriving Repr, DecidableEq

/-- Stored row of `journal_entries` as returned by the select in
`fetchJournalEntries`; `tags` and the joined `journal_photos` are nullable in
the row, modelled with `Option`. -/
structure StoredEntry where
  id : String
  title : String
  content : String
  source : String
  created_at : Int
  entry_date : String
  user_id : String
  tags : Option (List String)
  journal_photos : Option (List PhotoRow)
  deriving Repr, DecidableEq

/-- Entry shape handed to the UI by `fetchJournalEntries`. -/
structure Entry where
  id : String
  content : String
  title : String
  source : String
  timestamp : Int
  entry_date : String
  user_id : String
  tags : List String
  photos : List String
  deriving Repr, DecidableEq

/-- The per-user cipher's decrypt, an external collaborator
(`src/utils/encryption`): takes ciphertext and the user identity, succeeds
with the plaintext or fails (a thrown exception in the source). -/
def Decryptor : Type := String → String → Except String String

/-- Public-URL resolution of the object store (`getPublicUrl`), an external
collaborator mapping a storage file path to a retrievable URL. -/
def UrlResolver : Type := String → String

/-- Calls `fetchJournalEntries` makes against its collaborators. -/
inductive FetchEffect where
  | selectEntries (userId : String)
  | decryptAttempt (value userId : String)
  | getPublicUrl (path : String)
  deriving Repr, DecidableEq

/-- Photo mapping shared by the success and fallback branches:
`entry.journal_photos?.map(resolve) || []`. -/
def mapPhotos (pu : UrlResolver) (photos : Option (List PhotoRow)) : List String :=
  match photos with
  | some ps => ps.map (fun p => pu p.file_path)
  | none => []

/-- The public-URL calls issued while building one processed entry. -/
def photoEffects (photos : Option (List PhotoRow)) : List FetchEffect :=
  match photos with
  | some ps => ps.map (fun p => FetchEffect.getPublicUrl p.file_path)
  | none => []

/-- Entry built in the success branch of `fetchJournalEntries`, with both
fields decrypted. -/
def decryptedEntry (pu : UrlResolver) (e : StoredEntry) (c t : String) : Entry :=
  { id := e.id, content := c, title := t, source := e.source,
    timestamp := e.created_at, entry_date := e.entry_date, user_id := e.user_id,
    tags := e.tags.getD [], photos := mapPhotos pu e.journal_photos }

/-- Entry built in the catch branch of `fetchJournalEntries`: the raw stored
title and content are surfaced as-is. -/
def fallbackEntry (pu : UrlResolver) (e : StoredEntry) : Entry :=
  { id := e.id, content := e.content, title := e.title, source := e.source,
    timestamp := e.created_at, entry_date := e.entry_date, user_id := e.user_id,
    tags := e.tags.getD [], photos := mapPhotos pu e.journal_photos }

/-- Translation of the per-entry body of the `Promise.all` map in
`fetchJournalEntries`: content is decrypted, then the title; a failure of
either throws into the catch, which returns the fallback entry with the raw
stored values (the title decrypt is never reached when the content decrypt
already threw). -/
def processEntry (dec : Decryptor) (pu : UrlResolver) (userId : String)
    (e : StoredEntry) : List FetchEffect × Entry :=
  match dec e.content userId with
  | .ok c =>
    match dec e.title userId with
    | .ok t =>
      (FetchEffect.decryptAttempt e.content userId
         :: FetchEffect.decryptAttempt e.title userId
         :: photoEffects e.journal_photos,
       decryptedEntry pu e c t)
    | .error _ =>
      (FetchEffect.decryptAttempt e.content userId
         :: FetchEffect.decryptAttempt e.title userId
         :: photoEffects e.journal_photos,
       fallbackEntry pu e)
  | .error _ =>
    (FetchEffect.decryptAttempt e.content userId :: photoEffects e.journal_photos,
     fallbackEntry pu e)

/-- Translation of `fetchJournalEntries` from `journalService.ts`: a falsy
user id returns the empty list before any collaborator call; otherwise the
select runs, a database error propagates, and every returned row is processed
independently (the final null filter of the source never removes anything,
since both branches of the processing produce an entry). -/
def fetchJournalEntries (dec : Decryptor) (pu : UrlResolver) (userId : String)
    (dbResult : Except String (List StoredEntry)) :
    List FetchEffect × Except String (List Entry) :=
  if userId = "" then ([], .ok [])
  else
    match dbResult with
    | .error e => ([FetchEffect.selectEntries userId], .error e)
    | .ok rows =>
      let processed := rows.map (processEntry dec pu userId)
      (FetchEffect.selectEntries userId :: (processed.map Prod.fst).flatten,
       .ok (processed.map Prod.snd))

/-- Calendar date, the result of the entry-date computation. -/
structure CivilDate where
  year : Int
  month : Nat
  day : Nat
  deriving Repr, DecidableEq

/-- Civil calendar date of a count of days since the Unix epoch
(proleptic Gregorian calendar). -/
def civilFromDays (z0 : Int) : CivilDate :=
  let z := z0 + 719468
  let era := z.fdiv 146097
  let doe := z - era * 146097
  let yoe := (doe - doe.fdiv 1460 + doe.fdiv 36524 - doe.fdiv 146096).fdiv 365
  let y := yoe + era * 400
  let doy := doe - (365 * yoe + yoe.fdiv 4 - yoe.fdiv 100)
  let mp := (5 * doy + 2).fdiv 153
  let d := doy - (153 * mp + 2).fdiv 5 + 1
  let m := if mp < 10 then mp + 3 else mp - 9
  { year := if m ≤ 2 then y + 1 else y, month := m.toNat, day := d.toNat }

/-- Calendar date stored by the source's
`new Date(now.toLocaleString(.., {timeZone})).toISOString().split(..)[0]`
round-trip.  `toLocaleString` renders the instant's wall clock in the user's
zone (an offset of `userOffsetMinutes` from UTC), `new Date(string)` re-parses
those wall-clock fields in the zone of the host runtime executing the code (an
offset of `hostOffsetMinutes`), and `toISOString` takes the UTC date of the
re-parsed instant — so the stored date is the civil date of
`now + (userOffset − hostOffset)`.  (`toLocaleString` drops milliseconds; with
whole-minute offsets that truncation never moves the instant across a day
boundary, so it is omitted.)  Only on a host runtime at UTC does this coincide
with the user-zone calendar date. -/
def entryDateOf (nowMillis userOffsetMinutes hostOffsetMinutes : Int) : CivilDate :=
  civilFromDays
    ((nowMillis + (userOffsetMinutes - hostOffsetMinutes) * 60000).fdiv 86400000)

/-- Timezone resolution of `createJournalEntry`:
`userProfile?.timezone || 'UTC'` — a missing profile row or a falsy stored
timezone falls back to UTC. -/
def resolveTimezone (profileTimezone : Option String) : String :=
  match profileTimezone with
  | some tz => if tz = "" then "UTC" else tz
  | none => "UTC"

/-- Row inserted into `journal_entries` by `createJournalEntry`. -/
structure NewEntryRow where
  user_id : String
  content : String
  title : String
  source : String
  entry_date : CivilDate
  tags : List String
  deriving Repr, DecidableEq

/-- Translation of `createJournalEntry` from `journalService.ts` up to the
insert (photo upload follows the insert and does not touch the row).  The
cipher's `encrypt`, the tag validator (`src/utils/validation`), the content
validator, and the Intl timezone database (zone name to UTC offset in
minutes) are external collaborators passed as functions; `profileTimezone` is
the timezone selected from the user's profile row.  This function is browser
code, so `hostOffsetMinutes` is the UTC offset of the zone the user's browser
runs in, which the date round-trip of the source depends on (see
`entryDateOf`). -/
def createJournalEntry (encrypt : String → String → String) (tzdb : String → Int)
    (validTags : List String → List String) (contentOk : String → Bool)
    (nowMillis hostOffsetMinutes : Int) (profileTimezone : Option String)
    (userId content title : String) (tags : List String) :
    Except String NewEntryRow :=
  if userId = "" then .error "User not authenticated"
  else if contentOk content = false then .error "Invalid entry content"
  else
    let userTimezone := resolveTimezone profileTimezone
    let entryDate := entryDateOf nowMillis (tzdb userTimezone) hostOffsetMinutes
    .ok { user_id := userId, content := encrypt (strTrim content) userId,
          title := encrypt (strTrim title) userId, source := "web",
          entry_date := entryDate, tags := validTags tags }

/-- Persisted row of `journal_entries` as it exists before and after an
update. -/
structure EntryRow where
  id : String
  user_id : String
  title : String
  content : String
  source : String
  entry_date : CivilDate
  created_at : Int
  tags : List String
  deriving Repr, DecidableEq

/-- Translation of the row update of `updateJournalEntry` from
`journalService.ts` as it acts on one stored row: after content validation,
the update statement carries `content` (re-encrypted) and, only when the tags
argument was provided, `tags`; the filters `eq(id)` and `eq(user_id)` leave
non-matching rows untouched.  No other column appears in the update data. -/
def updateJournalEntry (encrypt : String → String → String)
    (validTags : List String → List String) (contentOk : String → Bool)
    (id content : String) (tags : Option (List String)) (userId : String)
    (row : EntryRow) : Except String EntryRow :=
  if contentOk content = false then .error "Invalid entry content"
  else if row.id = id ∧ row.user_id = userId then
    .ok { row with
          content := encrypt (strTrim content) userId,
          tags := match tags with
                  | some t => validTags t
                  | none => row.tags }
  else .ok row

end Journal

open SecureAuth ClientAuth Journal

namespace Fixtures

/-- Environment with a permissive rate limit and an active account lockout. -/
def lockedEnv : ServeEnv :=
  { clientIP := "203.0.113.7", nowMillis := 50,
    rateLimitResult := { allowed := true, attempts := 1, max_attempts := 5, blocked_until := none },
    lockoutRow := some { locked_until := some 100, failed_attempts := 3 },
    signUpOutcome := SignUpOutcome.success true, logOutcome := true }

/-- Same environment without any lockout row. -/
def openEnv : ServeEnv := { lockedEnv with lockoutRow := none }

/-- Environment whose rate limiter rejects the attempt. -/
def blockedEnv : ServeEnv :=
  { lockedEnv with
    rateLimitResult := { allowed := false, attempts := 4, max_attempts := 3, blocked_until := some 777 } }

/-- Well-formed sign-in request body. -/
def signinReq : AuthRequest :=
  { action := "signin", email := "a@b.c", password := "pw", phoneNumber := "", timezone := "" }

/-- Well-formed sign-up request body. -/
def signupReq : AuthRequest :=
  { action := "signup", email := "u@example.com", password := "Abcdefg1",
    phoneNumber := "555-123-4567", timezone := "UTC" }

/-- Decryptor that recognises two ciphertexts and fails on everything else. -/
def sampleDec : Decryptor := fun s _ =>
  if s = "enc-content" then Except.ok "plain content"
  else if s = "enc-title" then Except.ok "plain title"
  else Except.error "decryption failed"

/-- URL resolver prefixing the storage path with a host. -/
def sampleUrl : UrlResolver := fun p => "https://cdn.example/" ++ p

/-- Stored entry whose title and content the sample decryptor handles. -/
def entryOk : StoredEntry :=
  { id := "e1", title := "enc-title", content := "enc-content", source := "web",
    created_at := 10, entry_date := "2024-01-01", user_id := "u1",
    tags := some ["travel"], journal_photos := none }

/-- Stored entry whose content the sample decryptor rejects. -/
def entryCorrupt : StoredEntry :=
  { id := "e2", title := "raw-title", content := "raw-content", source := "sms",
    created_at := 20, entry_date := "2024-01-02", user_id := "u1",
    tags := none,
    journal_photos := some [{ id := "p1", file_path := "u1/e2/a.jpg", file_name := "a.jpg" }] }

/-- Identity cipher standing in for the external encrypt collaborator. -/
def encId : String → String → String := fun s _ => s

/-- Identity tag validator standing in for the external collaborator. -/
def idTags : List String → List String := fun t => t

/-- Content validator accepting everything. -/
def alwaysOk : String → Bool := fun _ => true

/-- Timezone database for the witness: a zone eight hours west of UTC. -/
def tzdbWest : String → Int := fun tz =>
  if tz = "America/Los_Angeles" then -480 else 0

/-- Stored journal row for the update witness. -/
def rowBefore : EntryRow :=
  { id := "e1", user_id := "u1", title := "t", content := "old", source := "web",
    entry_date := { year := 2024, month := 1, day := 1 }, created_at := 5,
    tags := ["a"] }

end Fixtures

/-- Claim C10: fetching journal entries with an empty (falsy) user identity
returns the empty list immediately, with no storage query, decryption attempt
or photo URL resolution (the effect list is empty), for every decryptor, URL
resolver and database outcome. -/
theorem claim_C10_fetch_empty_user (dec : Decryptor) (pu : UrlResolver)
    (db : Except String (List StoredEntry)) :
    fetchJournalEntries dec pu "" db = ([], Except.ok []) := by
  rfl

/-- Claim C9: sign-out clears the local session state (both `user` and
`session`) as its first step, before the remote sign-out call, and the cleared
state is the final one for every remote outcome — success, an error result or
a thrown exception — so it is never rolled back. -/
theorem claim_C9_signout_unconditional_clear (s : AuthState) (r : RemoteSignOutOutcome) :
    (signOut s r).1.user = none ∧
    (signOut s r).1.session = none ∧
    (signOut s r).2.1 =
      [SignOutEvent.clearLocalState, SignOutEvent.remoteSignOutCall r] ∧
    (signOut s r).1 = clearAuthState s ∧
    (∀ msg, (signOut s (RemoteSignOutOutcome.errResult msg)).1
              = (signOut s RemoteSignOutOutcome.ok).1) ∧
    (∀ msg, (signOut s (RemoteSignOutOutcome.thrown msg)).1
              = (signOut s RemoteSignOutOutcome.ok).1) := by
  refine ⟨rfl, rfl, rfl, rfl, fun msg => rfl, fun msg => rfl⟩

/-- Claim C5, counterexample: the password given in the claim is not 7
characters long and does not fail the length requirement — it is 8 characters,
meets the minimum length, and fails strength validation only because it
contains no upper-case letter. -/
theorem claim_C5_counterexample :
    "abcdefg1".length = 8 ∧
    ¬("abcdefg1".length < 8) ∧
    decide ("abcdefg1".length ≥ 8) = true ∧
    validatePassword "abcdefg1" = false ∧
    "abcdefg1".toList.any Char.isUpper = false := by
  decide

/-- Claim C5 (amended): sign-up password strength validation requires at least
8 characters containing an upper-case letter, a lower-case letter and a digit;
the password of the claim fails validation — not for its length, which at 8
characters meets the minimum, but because it lacks an upper-case letter — and
the capitalised variant passes. -/
theorem claim_C5_password_strength :
    (∀ p, validatePassword p = true ↔
       (8 ≤ p.length ∧ p.toList.any Char.isUpper = true ∧
        p.toList.any Char.isLower = true ∧ p.toList.any Char.isDigit = true)) ∧
    validatePassword "abcdefg1" = false ∧
    "abcdefg1".length = 8 ∧
    "abcdefg1".toList.any Char.isUpper = false ∧
    validatePassword "Abcdefg1" = true := by
  refine ⟨fun p => ?_, by decide, by decide, by decide, by decide⟩
  simp [validatePassword, and_assoc]

/-- Claim C7: the handler's response is independent of the outcome of the
security-event logging append — for every request and environment, flipping
the log-write success flag leaves the returned response unchanged, so a
logging failure never aborts the primary operation. -/
theorem claim_C7_log_failure_swallowed (env : ServeEnv) (body : Option AuthRequest)
    (a b : Bool) :
    (serve { env with logOutcome := a } body).2
      = (serve { env with logOutcome := b } body).2 := by
  cases body with
  | none => rfl
  | some req =>
    show (serveValidated _ req).2 = (serveValidated _ req).2
    by_cases h1 : req.action = "signin" ∨ req.action = "signup"
    case neg => simp [serveValidated, h1]
    by_cases h2 : req.email = "" ∨ validateEmail req.email = false
    case pos => simp [serveValidated, h1, h2]
    case neg =>
      simp [serveValidated, h1, h2]
      split
      · rfl
      · split
        · rfl
        · split
          · rfl
          · split
            · rfl
            · split
              · split <;> rfl
              · split <;> rfl

/-- Claim C1: on fetch, each stored entry's decryption is attempted
independently of the other entries; when decrypting an entry's title or
content fails, that single entry — not the batch — falls back to its raw
stored values: with one decryptable and one undecryptable entry for the same
user, the fetch succeeds with two entries, the first correctly decrypted, the
second carrying the raw stored title and content. -/
theorem claim_C1_fetch_per_entry_fallback (dec : Decryptor) (pu : UrlResolver)
    (userId : String) (e1 e2 : StoredEntry) (c1 t1 : String)
    (hu : userId ≠ "")
    (h1c : dec e1.content userId = Except.ok c1)
    (h1t : dec e1.title userId = Except.ok t1)
    (h2 : (∃ m, dec e2.content userId = Except.error m) ∨
          (∃ c m, dec e2.content userId = Except.ok c ∧
                  dec e2.title userId = Except.error m)) :
    (fetchJournalEntries dec pu userId (Except.ok [e1, e2])).2 =
      Except.ok [decryptedEntry pu e1 c1 t1, fallbackEntry pu e2] := by
  rcases h2 with ⟨m, hm⟩ | ⟨c, m, hc, hm⟩
  · simp [fetchJournalEntries, hu, processEntry, h1c, h1t, hm]
  · simp [fetchJournalEntries, hu, processEntry, h1c, h1t, hc, hm]

/-- Witness for claim C1 at concrete inputs: one entry the sample decryptor
handles and one it rejects. -/
theorem claim_C1_witness :
    (fetchJournalEntries Fixtures.sampleDec Fixtures.sampleUrl "u1"
        (Except.ok [Fixtures.entryOk, Fixtures.entryCorrupt])).2 =
      Except.ok
        [decryptedEntry Fixtures.sampleUrl Fixtures.entryOk "plain content" "plain title",
         fallbackEntry Fixtures.sampleUrl Fixtures.entryCorrupt] :=
  claim_C1_fetch_per_entry_fallback Fixtures.sampleDec Fixtures.sampleUrl "u1"
    Fixtures.entryOk Fixtures.entryCorrupt "plain content" "plain title"
    (by decide) rfl rfl (Or.inl ⟨"decryption failed", rfl⟩)

/-- Claim C2: a sign-in request that passes input validation and whose
identifier the rate limiter allows is still rejected with the locked response
— HTTP 423 carrying the lockout expiry, distinct from the 429 rate-limit
response — whenever the account's lockout row holds a future timestamp; the
trace shows the rate-limit gate ran first, the lockout lookup second, and no
identity-provider call was made. -/
theorem claim_C2_lockout_blocks_signin (env : ServeEnv) (req : AuthRequest)
    (row : LockoutRow) (t : Int)
    (hact : req.action = "signin")
    (hem : req.email ≠ "") (hev : validateEmail req.email = true)
    (hpw : req.password ≠ "")
    (hph : req.phoneNumber = "" ∨ validatePhoneNumber req.phoneNumber = true)
    (hrl : env.rateLimitResult.allowed = true)
    (hlo : env.lockoutRow = some row) (hlu : row.locked_until = some t)
    (hfut : env.nowMillis < t) :
    (serveValidated env req).2.status = 423 ∧
    (serveValidated env req).2.locked_until = some t ∧
    (serveValidated env req).2.status ≠ 429 ∧
    (serveValidated env req).1 =
      [Effect.rpcCheckRateLimit (env.clientIP ++ ":" ++ req.email) "auth_signin" 5 15,
       Effect.selectLockout req.email] ∧
    (∀ e, Effect.authSignUp e ∉ (serveValidated env req).1) := by
  simp [serveValidated, hact, hem, hev, hpw, hrl, hlo, hlu, activeLockUntil, hfut]
  rcases hph with h | h <;> simp [h]

/-- Witness for claim C2: a locked account with a permissive rate limit. -/
theorem claim_C2_witness :
    (serveValidated Fixtures.lockedEnv Fixtures.signinReq).2.status = 423 ∧
    (serveValidated Fixtures.lockedEnv Fixtures.signinReq).2.locked_until = some 100 ∧
    (serveValidated Fixtures.lockedEnv Fixtures.signinReq).2.status ≠ 429 ∧
    (serveValidated Fixtures.lockedEnv Fixtures.signinReq).1 =
      [Effect.rpcCheckRateLimit "203.0.113.7:a@b.c" "auth_signin" 5 15,
       Effect.selectLockout "a@b.c"] ∧
    (∀ e, Effect.authSignUp e ∉ (serveValidated Fixtures.lockedEnv Fixtures.signinReq).1) :=
  claim_C2_lockout_blocks_signin Fixtures.lockedEnv Fixtures.signinReq
    { locked_until := some 100, failed_attempts := 3 } 100
    rfl (by decide) (by decide) (by decide) (Or.inl rfl) rfl rfl rfl (by decide)

/-- Claim C3: a sign-in request passing validation, rate limiting and the
lockout check is answered only with the validation-passed acknowledgment
(validation flag, message, and the observed rate-limit counters) and the
gateway never calls the identity provider; on the client, the credential
exchange with the identity provider happens only after the gateway invocation
returned without error and reported the validation flag, the invocation being
the first step of the trace. -/
theorem claim_C3_signin_two_phase (env : ServeEnv) (req : AuthRequest)
    (hact : req.action = "signin")
    (hem : req.email ≠ "") (hev : validateEmail req.email = true)
    (hpw : req.password ≠ "")
    (hph : req.phoneNumber = "" ∨ validatePhoneNumber req.phoneNumber = true)
    (hrl : env.rateLimitResult.allowed = true)
    (hnl : activeLockUntil env.nowMillis env.lockoutRow = none) :
    (serveValidated env req).2 =
      { status := 200, validation_passed := some true,
        message := some "Security validation passed",
        rate_limit := some (env.rateLimitResult.attempts, env.rateLimitResult.max_attempts) } ∧
    (∀ e, Effect.authSignUp e ∉ (serveValidated env req).1) ∧
    (∀ cenv email, ClientEffect.signInWithPassword email ∈ (signIn cenv email).1 →
       cenv.invokeError = none ∧ cenv.validationPassed = true ∧
       (signIn cenv email).1.head? = some (ClientEffect.invokeSecureAuth "signin" email)) := by
  have hsu : ¬(req.action = "signup" ∧ validatePassword req.password = false) := by
    simp [hact]
  have hgw : (serveValidated env req).2 =
      { status := 200, validation_passed := some true,
        message := some "Security validation passed",
        rate_limit := some (env.rateLimitResult.attempts, env.rateLimitResult.max_attempts) } ∧
      (∀ e, Effect.authSignUp e ∉ (serveValidated env req).1) := by
    simp [serveValidated, hact, hem, hev, hpw, hsu, hrl, hnl]
    rcases hph with h | h <;> simp [h]
  refine ⟨hgw.1, hgw.2, fun cenv email hmem => ?_⟩
  rcases hei : cenv.invokeError with _ | msg
  · by_cases hvp : cenv.validationPassed = false
    · simp [signIn, hei, hvp] at hmem
    · simp only [Bool.not_eq_false] at hvp
      exact ⟨by simp [hei], hvp,
        by rcases ha : cenv.authError with _ | m <;> simp [signIn, hei, hvp, ha]⟩
  · simp [signIn, hei] at hmem

/-- Witness for claim C3: the unlocked environment answers the sign-in with
the validation-passed acknowledgment. -/
theorem claim_C3_witness :
    (serveValidated Fixtures.openEnv Fixtures.signinReq).2 =
      { status := 200, validation_passed := some true,
        message := some "Security validation passed",
        rate_limit := some (1, 5) } ∧
    (∀ e, Effect.authSignUp e ∉ (serveValidated Fixtures.openEnv Fixtures.signinReq).1) ∧
    (∀ cenv email, ClientEffect.signInWithPassword email ∈ (signIn cenv email).1 →
       cenv.invokeError = none ∧ cenv.validationPassed = true ∧
       (signIn cenv email).1.head? = some (ClientEffect.invokeSecureAuth "signin" email)) :=
  claim_C3_signin_two_phase Fixtures.openEnv Fixtures.signinReq
    rfl (by decide) (by decide) (by decide) (Or.inl rfl) rfl rfl

/-- Claim C4: every request that reaches the rate-limit gate first calls the
rate limiter keyed by client address and email with five attempts for
sign-in, three for sign-up, and a fifteen-minute window for both; when the
limiter rejects, the handler records a medium-severity rate-limit-exceeded
security event and answers HTTP 429 with the blocked-until timestamp. -/
theorem claim_C4_rate_limit_gate (env : ServeEnv) (req : AuthRequest)
    (hact : req.action = "signin" ∨ req.action = "signup")
    (hem : req.email ≠ "") (hev : validateEmail req.email = true)
    (hpw : req.password ≠ "")
    (hps : req.action = "signup" → validatePassword req.password = true)
    (hph : req.phoneNumber = "" ∨ validatePhoneNumber req.phoneNumber = true) :
    (req.action = "signin" →
       (serveValidated env req).1.head? =
         some (Effect.rpcCheckRateLimit (env.clientIP ++ ":" ++ req.email) "auth_signin" 5 15)) ∧
    (req.action = "signup" →
       (serveValidated env req).1.head? =
         some (Effect.rpcCheckRateLimit (env.clientIP ++ ":" ++ req.email) "auth_signup" 3 15)) ∧
    (env.rateLimitResult.allowed = false →
       (serveValidated env req).2.status = 429 ∧
       (serveValidated env req).2.blocked_until = env.rateLimitResult.blocked_until ∧
       (serveValidated env req).1 =
         [Effect.rpcCheckRateLimit (env.clientIP ++ ":" ++ req.email)
            (if req.action = "signin" then "auth_signin" else "auth_signup")
            (if req.action = "signin" then 5 else 3) 15,
          Effect.insertSecurityEvent "rate_limit_exceeded"
            (env.clientIP ++ ":" ++ req.email) "medium" env.logOutcome]) := by
  have hvalid : ¬(req.email = "" ∨ validateEmail req.email = false) := by
    simp [hem, hev]
  have hphone : ¬(req.phoneNumber ≠ "" ∧ validatePhoneNumber req.phoneNumber = false) := by
    rcases hph with h | h <;> simp [h]
  rcases hact with hact | hact
  · have hsu : ¬(req.action = "signup" ∧ validatePassword req.password = false) := by
      simp [hact]
    refine ⟨fun _ => ?_, fun hs => absurd (hact.symm.trans hs) (by decide), fun hna => ?_⟩
    · by_cases hrl : env.rateLimitResult.allowed = false <;>
        · simp [serveValidated, hact, hvalid, hpw, hsu, hphone, hrl]
          try split <;> simp
    · simp [serveValidated, hact, hvalid, hpw, hsu, hphone, hna]
  · have hpv : validatePassword req.password = true := hps hact
    have hns : ¬(req.action = "signin") := by simp [hact]
    refine ⟨fun hs => absurd (hact.symm.trans hs) (by decide), fun _ => ?_, fun hna => ?_⟩
    · by_cases hrl : env.rateLimitResult.allowed = false
      · simp [serveValidated, hact, hvalid, hpw, hpv, hphone, hrl, hns]
      · simp only [serveValidated]
        simp [hact, hvalid, hpw, hpv, hphone, hrl, hns]
        rcases env.signUpOutcome with msg | hu <;> simp
    · simp [serveValidated, hact, hvalid, hpw, hpv, hphone, hna, hns]

/-- Witness for claim C4: a valid sign-up request against the environment
whose rate limiter rejects the attempt. -/
theorem claim_C4_witness :
    ("signup" = "signin" →
       (serveValidated Fixtures.blockedEnv Fixtures.signupReq).1.head? =
         some (Effect.rpcCheckRateLimit "203.0.113.7:u@example.com" "auth_signin" 5 15)) ∧
    ("signup" = "signup" →
       (serveValidated Fixtures.blockedEnv Fixtures.signupReq).1.head? =
         some (Effect.rpcCheckRateLimit "203.0.113.7:u@example.com" "auth_signup" 3 15)) ∧
    (false = false →
       (serveValidated Fixtures.blockedEnv Fixtures.signupReq).2.status = 429 ∧
       (serveValidated Fixtures.blockedEnv Fixtures.signupReq).2.blocked_until = some 777 ∧
       (serveValidated Fixtures.blockedEnv Fixtures.signupReq).1 =
         [Effect.rpcCheckRateLimit "203.0.113.7:u@example.com" "auth_signup" 3 15,
          Effect.insertSecurityEvent "rate_limit_exceeded"
            "203.0.113.7:u@example.com" "medium" true]) :=
  claim_C4_rate_limit_gate Fixtures.blockedEnv Fixtures.signupReq
    (Or.inr rfl) (by decide) (by decide) (by decide) (fun _ => by decide)
    (Or.inr (by decide))

/-- Claim C6, code bug: the code intends (per its own comments and the spec)
to store the user-zone calendar date, but the stored entry date is actually
the civil date of the instant shifted by the user-zone offset minus the
offset of the zone the browser runs in, because the wall-clock string
rendered in the user's zone is re-parsed in the host zone before the UTC date
is taken.  At the claim's instant 2024-01-01T06:00:00Z with the user's stored
zone eight hours west of UTC, a browser in that same zone stores 2024-01-01 —
the server-UTC date the claim rules out — and the claimed 2023-12-31 is
stored only when the browser's own zone offset is zero. -/
theorem claim_C6_code_divergence (encrypt : String → String → String)
    (tzdb : String → Int) (validTags : List String → List String)
    (contentOk : String → Bool) (hostOffsetMinutes : Int)
    (profileTimezone : Option String) (userId content title : String)
    (tags : List String) (row : NewEntryRow)
    (hok : createJournalEntry encrypt tzdb validTags contentOk 1704088800000
             hostOffsetMinutes profileTimezone userId content title tags = Except.ok row)
    (htz : tzdb (resolveTimezone profileTimezone) = -480) :
    row.entry_date = entryDateOf 1704088800000 (-480) hostOffsetMinutes ∧
    (hostOffsetMinutes = -480 →
       row.entry_date = { year := 2024, month := 1, day := 1 } ∧
       row.entry_date ≠ { year := 2023, month := 12, day := 31 }) ∧
    (hostOffsetMinutes = 0 →
       row.entry_date = { year := 2023, month := 12, day := 31 }) := by
  unfold createJournalEntry at hok
  split at hok
  · exact absurd hok (by simp)
  · split at hok
    · exact absurd hok (by simp)
    · rw [Except.ok.injEq] at hok
      subst hok
      rw [htz]
      refine ⟨rfl, fun hh => ?_, fun hh => ?_⟩
      · subst hh
        have h1 : entryDateOf 1704088800000 (-480) (-480) =
            { year := 2024, month := 1, day := 1 } := by decide
        have h2 : entryDateOf 1704088800000 (-480) (-480) ≠
            ({ year := 2023, month := 12, day := 31 } : CivilDate) := by decide
        exact ⟨h1, h2⟩
      · subst hh
        have h3 : entryDateOf 1704088800000 (-480) 0 =
            { year := 2023, month := 12, day := 31 } := by decide
        exact h3

/-- Witness for the claim C6 divergence theorem: the failing input concretely
— the creating browser sits in the same zone, eight hours west of UTC, as the
user's stored timezone, and the row created at 2024-01-01T06:00:00Z carries
the date 2024-01-01. -/
theorem claim_C6_code_divergence_witness :
    ({ user_id := "u1", content := "hello", title := "day", source := "web",
       entry_date := { year := 2024, month := 1, day := 1 },
       tags := [] } : NewEntryRow).entry_date =
      entryDateOf 1704088800000 (-480) (-480) ∧
    ((-480 : Int) = -480 →
       ({ user_id := "u1", content := "hello", title := "day", source := "web",
          entry_date := { year := 2024, month := 1, day := 1 },
          tags := [] } : NewEntryRow).entry_date =
           { year := 2024, month := 1, day := 1 } ∧
       ({ user_id := "u1", content := "hello", title := "day", source := "web",
          entry_date := { year := 2024, month := 1, day := 1 },
          tags := [] } : NewEntryRow).entry_date ≠
           { year := 2023, month := 12, day := 31 }) ∧
    ((-480 : Int) = 0 →
       ({ user_id := "u1", content := "hello", title := "day", source := "web",
          entry_date := { year := 2024, month := 1, day := 1 },
          tags := [] } : NewEntryRow).entry_date =
           { year := 2023, month := 12, day := 31 }) :=
  claim_C6_code_divergence Fixtures.encId Fixtures.tzdbWest Fixtures.idTags
    Fixtures.alwaysOk (-480) (some "America/Los_Angeles") "u1" "hello" "day" []
    { user_id := "u1", content := "hello", title := "day", source := "web",
      entry_date := { year := 2024, month := 1, day := 1 }, tags := [] }
    (by rfl) (by rfl)

/-- Claim C8: an update to a journal entry modifies only the content
(re-encrypted) and, when provided, the tags; the entry date — together with
the title, source, owning user and creation timestamp — is unchanged by every
update, and rows not matching the id and owner filters are untouched. -/
theorem claim_C8_update_frame (encrypt : String → String → String)
    (validTags : List String → List String) (contentOk : String → Bool)
    (id content : String) (tags : Option (List String)) (userId : String)
    (row row' : EntryRow)
    (hok : updateJournalEntry encrypt validTags contentOk id content tags userId row
             = Except.ok row') :
    row'.entry_date = row.entry_date ∧
    row'.title = row.title ∧
    row'.source = row.source ∧
    row'.user_id = row.user_id ∧
    row'.created_at = row.created_at ∧
    row'.id = row.id ∧
    (row.id = id ∧ row.user_id = userId →
       row'.content = encrypt (strTrim content) userId ∧
       (∀ t, tags = some t → row'.tags = validTags t) ∧
       (tags = none → row'.tags = row.tags)) ∧
    (¬(row.id = id ∧ row.user_id = userId) → row' = row) := by
  unfold updateJournalEntry at hok
  split at hok
  · exact absurd hok (by simp)
  · split at hok
    case isTrue hmatch =>
      rw [Except.ok.injEq] at hok
      subst hok
      refine ⟨rfl, rfl, rfl, rfl, rfl, rfl, fun _ => ⟨rfl, ?_, ?_⟩,
        fun hnm => absurd hmatch hnm⟩
      · intro t ht; rw [ht]
      · intro ht; rw [ht]
    case isFalse hmatch =>
      rw [Except.ok.injEq] at hok
      subst hok
      exact ⟨rfl, rfl, rfl, rfl, rfl, rfl, fun hm => absurd hm hmatch, fun _ => rfl⟩

/-- Witness for claim C8: updating the sample row's content and tags leaves
every other column as it was. -/
theorem claim_C8_witness :
    ({ Fixtures.rowBefore with content := "new", tags := ["b", "c"] }).entry_date
      = Fixtures.rowBefore.entry_date ∧
    ({ Fixtures.rowBefore with content := "new", tags := ["b", "c"] }).title
      = Fixtures.rowBefore.title ∧
    ({ Fixtures.rowBefore with content := "new", tags := ["b", "c"] }).source
      = Fixtures.rowBefore.source ∧
    ({ Fixtures.rowBefore with content := "new", tags := ["b", "c"] }).user_id
      = Fixtures.rowBefore.user_id ∧
    ({ Fixtures.rowBefore with content := "new", tags := ["b", "c"] }).created_at
      = Fixtures.rowBefore.created_at ∧
    ({ Fixtures.rowBefore with content := "new", tags := ["b", "c"] }).id
      = Fixtures.rowBefore.id ∧
    (Fixtures.rowBefore.id = "e1" ∧ Fixtures.rowBefore.user_id = "u1" →
       ({ Fixtures.rowBefore with content := "new", tags := ["b", "c"] }).content
           = Fixtures.encId (strTrim " new ") "u1" ∧
       (∀ t, some ["b", "c"] = some t →
          ({ Fixtures.rowBefore with content := "new", tags := ["b", "c"] }).tags
            = Fixtures.idTags t) ∧
       (some ["b", "c"] = none →
          ({ Fixtures.rowBefore with content := "new", tags := ["b", "c"] }).tags
            = Fixtures.rowBefore.tags)) ∧
    (¬(Fixtures.rowBefore.id = "e1" ∧ Fixtures.rowBefore.user_id = "u1") →
       ({ Fixtures.rowBefore with content := "new", tags := ["b", "c"] } : EntryRow)
         = Fixtures.rowBefore) :=
  claim_C8_update_frame Fixtures.encId Fixtures.idTags Fixtures.alwaysOk
    "e1" " new " (some ["b", "c"]) "u1" Fixtures.rowBefore
    { Fixtures.rowBefore with content := "new", tags := ["b", "c"] }
    (by rfl)
